import Mathlib

set_option maxHeartbeats 1000000

/-!
Verification development for the core ICE agent of src/agent/agent.c (libnice).
The data model and the operations under scrutiny are embedded shallowly:
C structs become Lean structures, pointer mutation becomes first-match list
updates, fallible allocation becomes explicit boolean oracles, and the
external collaborators that are not part of src/ (stream.c, discovery.c,
conncheck.c, random.c, the socket layer) are either abstracted into
parameters or modelled from the specification, as marked on each definition.
-/

namespace Libnice

/-- Transport address (`NiceAddress` in address.h): IP family, IP bytes, UDP port. -/
structure NiceAddress where
  family : Nat
  addr_bytes : List Nat
  port : Nat
deriving DecidableEq

/-- The all-zero address, standing for a zero-initialised `NiceAddress`. -/
def zeroAddress : NiceAddress :=
  { family := 0, addr_bytes := [], port := 0 }

/-- A UDP socket handle (`NiceUDPSocket`); only the file descriptor is observable here. -/
structure NiceUDPSocket where
  fileno : Nat
deriving DecidableEq

/-- `NiceCandidateType` from candidate.h. -/
inductive CandidateType where
  | host
  | serverReflexive
  | peerReflexive
  | relayed
deriving DecidableEq

/-- `NiceCandidateTransport` from candidate.h; only UDP exists. -/
inductive CandidateTransport where
  | udp
deriving DecidableEq

/-- A candidate (`NiceCandidate` in candidate.h). The C field `type` is named
    `type` here as well; `sockptr` is the owning socket for local candidates
    (zero-initialised for remote ones). -/
structure NiceCandidate where
  stream_id : Nat
  component_id : Nat
  type : CandidateType
  transport : CandidateTransport
  addr : NiceAddress
  base_addr : NiceAddress
  priority : Nat
  sockptr : NiceUDPSocket
  foundation : String
  username : Option String
  password : Option String
deriving DecidableEq

/-- A component's selected pair (`CandidatePair` in component.h). The C fields
    are pointers named `local` and `remote`; `local` is a Lean keyword, hence
    the names used here. -/
structure CandidatePair where
  local_candidate : Option NiceCandidate
  remote_candidate : Option NiceCandidate
deriving DecidableEq

/-- `NiceComponentState` from agent.h. -/
inductive NiceComponentState where
  | disconnected
  | gathering
  | connecting
  | connected
  | ready
  | failed
deriving DecidableEq

/-- A component (`Component` in component.h). `gsources` holds the ids of the
    attached main-loop sources. -/
structure Component where
  id : Nat
  state : NiceComponentState
  sockets : List NiceUDPSocket
  local_candidates : List NiceCandidate
  remote_candidates : List NiceCandidate
  selected_pair : CandidatePair
  media_after_tick : Bool
  gsources : List Nat
deriving DecidableEq

/-- A stream (`Stream` in stream.h). Credential buffers are byte lists; the C
    fixed-size char arrays hold NUL-terminated strings, represented by their
    contents. -/
structure Stream where
  id : Nat
  components : List Component
  local_ufrag : List Nat
  local_password : List Nat
  remote_ufrag : List Nat
  remote_password : List Nat
  initial_binding_request_received : Bool
deriving DecidableEq

/-- A candidate-discovery record (`CandidateDiscovery` in discovery.h). The C
    fields `stream` and `component` are pointers; here the stream's id and the
    id of the component found by `stream_find_component_by_id` (none when that
    lookup returned NULL). The C field `interface` is `interface_addr` here. -/
structure CandidateDiscovery where
  type : CandidateType
  socket : Nat
  nicesock : NiceUDPSocket
  server_addr : String
  server_port : Nat
  interface_addr : NiceAddress
  stream_id : Nat
  component : Option Nat
deriving DecidableEq

/-- Modelled from the spec: a connectivity-check entry (conncheck.c is not under
    src/). Only the owning stream id matters for the claims considered here. -/
structure CandidateCheckPair where
  stream_id : Nat
  component_id : Nat
  pair_id : Nat
deriving DecidableEq

/-- Modelled from the spec: the agent's random generator (random.c is not under
    src/), as a supply of random values consumed in order. -/
structure NiceRNG where
  supply : List Nat
deriving DecidableEq

/-- Modelled from the spec: `nice_rng_generate_bytes_print` fills a buffer with
    `n` random printable characters; printable bytes here are 33..126 (a 94-value
    printable range). Returns the generated bytes and the advanced generator. -/
def nice_rng_generate_bytes_print (rng : NiceRNG) (n : Nat) : List Nat × NiceRNG :=
  ((List.range n).map (fun i => 33 + rng.supply.getD i 0 % 94),
   { supply := rng.supply.drop n })

/-- Observable effects of an agent call: the GObject signals it emits plus the
    start of discovery scheduling (`discovery_schedule`, an internal timer). -/
inductive AgentSignal where
  | candidateGatheringDone
  | discoveryScheduled
  | initialBindingRequestReceived (stream_id : Nat)
deriving DecidableEq

/-- The agent (`NiceAgent` in agent-priv.h), restricted to the fields the
    examined operations read or write. -/
structure NiceAgent where
  streams : List Stream
  local_addresses : List NiceAddress
  next_stream_id : Nat
  discovery_list : List CandidateDiscovery
  discovery_unsched_items : Nat
  conncheck_list : List CandidateCheckPair
  keepalive_timer_id : Nat
  rng : NiceRNG
  full_mode : Bool
  stun_server_ip : Option String
  stun_server_port : Nat
  main_context_set : Bool
deriving DecidableEq

/-- Update the first list element satisfying `p` (in-place pointer mutation of
    the element found by a linear search). -/
def updateFirstBy {α : Type} (p : α → Bool) (f : α → α) : List α → List α
  | [] => []
  | x :: xs => if p x then f x :: xs else x :: updateFirstBy p f xs

/-- Remove the first list element satisfying `p` (`g_slist_remove` removes the
    first link holding the given pointer). -/
def removeFirstBy {α : Type} (p : α → Bool) : List α → List α
  | [] => []
  | x :: xs => if p x then xs else x :: removeFirstBy p xs

/-- agent.c: `agent_find_stream` — the first stream with the given id. -/
def agent_find_stream (agent : NiceAgent) (stream_id : Nat) : Option Stream :=
  agent.streams.find? (fun s => s.id == stream_id)

/-- Modelled from the spec: `stream_find_component_by_id` (stream.c is not under
    src/); returns the stream's component with the given 1-based id, if any. -/
def stream_find_component_by_id (s : Stream) (component_id : Nat) : Option Component :=
  s.components.find? (fun c => c.id == component_id)

/-- agent.c: `agent_find_component`. Returns `none` (FALSE) iff the stream id is
    unknown; when the stream exists, the component out-parameter may still be
    NULL, hence the inner `Option`. -/
def agent_find_component (agent : NiceAgent) (stream_id component_id : Nat) :
    Option (Stream × Option Component) :=
  match agent_find_stream agent stream_id with
  | none => none
  | some s => some (s, stream_find_component_by_id s component_id)

/-- A datagram handed to `nice_udp_socket_send`. -/
structure SentDatagram where
  socket : NiceUDPSocket
  dest : NiceAddress
  len : Nat
  payload : List Nat
deriving DecidableEq

/-- Replace, in the first matching component of the first matching stream, the
    component by `f` of it: mutation through the pointers found by
    `agent_find_component`. -/
def updateComponentIn (agent : NiceAgent) (stream_id component_id : Nat)
    (f : Component → Component) : NiceAgent :=
  { agent with
    streams :=
      updateFirstBy (fun s => s.id == stream_id)
        (fun s =>
          { s with
            components :=
              updateFirstBy (fun c => c.id == component_id) f s.components })
        agent.streams }

/-- A component with its `media_after_tick` flag raised. -/
def mediaTrue (c : Component) : Component :=
  { c with media_after_tick := true }

/-- A stream whose first component with the given id has `media_after_tick`
    raised. -/
def streamMediaTrue (s : Stream) (component_id : Nat) : Stream :=
  { s with components :=
      updateFirstBy (fun c => c.id == component_id) mediaTrue s.components }

/-- The mutation `component->media_after_tick = TRUE` performed through the
    component pointer obtained by `agent_find_component`. -/
def setMediaAfterTick (agent : NiceAgent) (stream_id component_id : Nat) : NiceAgent :=
  updateComponentIn agent stream_id component_id mediaTrue

/-- agent.c: `nice_agent_send`. The C code ignores the return value of
    `agent_find_component`, so when the stream is unknown the component pointer
    stays uninitialised, and when the component is unknown it is NULL; both are
    then dereferenced — modelled as `none` (undefined behavior). Otherwise the
    result carries the updated agent, the datagram handed to
    `nice_udp_socket_send` (if any), and the returned `gint`. -/
def nice_agent_send (agent : NiceAgent) (stream_id component_id : Nat) (len : Nat)
    (buf : List Nat) : Option (NiceAgent × Option SentDatagram × Int) :=
  match agent_find_component agent stream_id component_id with
  | none => none
  | some (_, none) => none
  | some (_, some component) =>
    match component.selected_pair.local_candidate with
    | none => some (agent, none, -1)
    | some lcand =>
      match component.selected_pair.remote_candidate with
      | none => none
      | some rcand =>
        some (setMediaAfterTick agent stream_id component_id,
              some { socket := lcand.sockptr, dest := rcand.addr,
                     len := len, payload := buf },
              (len : Int))

/-- agent.c: `priv_add_srv_rfx_candidate_discovery`, acting on the agent's
    `discovery_list` and `discovery_unsched_items` (the only agent state it
    touches). The three booleans are the allocation outcomes of `g_slice_new0`
    and of the first and second `g_slist_append`; the C code performs both
    appends with the same freshly allocated record. -/
def priv_add_srv_rfx_candidate_discovery (discovery_list : List CandidateDiscovery)
    (discovery_unsched_items : Nat) (host_candidate : NiceCandidate)
    (stun_server_ip : String) (stun_server_port : Nat) (stream : Stream)
    (component_id : Nat) (addr : NiceAddress)
    (alloc_ok append1_ok append2_ok : Bool) :
    List CandidateDiscovery × Nat × Bool :=
  if alloc_ok then
    if append1_ok then
      let cdisco : CandidateDiscovery :=
        { type := CandidateType.serverReflexive,
          socket := host_candidate.sockptr.fileno,
          nicesock := host_candidate.sockptr,
          server_addr := stun_server_ip,
          server_port := stun_server_port,
          interface_addr := addr,
          stream_id := stream.id,
          component := (stream_find_component_by_id stream component_id).map Component.id }
      if append2_ok then
        (discovery_list ++ [cdisco] ++ [cdisco], discovery_unsched_items + 1, true)
      else
        (discovery_list ++ [cdisco], discovery_unsched_items, true)
    else (discovery_list, discovery_unsched_items, true)
  else (discovery_list, discovery_unsched_items, false)

/-- agent.c: `_nice_agent_recv`, after `nice_udp_socket_recv` produced the
    datagram `dgram` into a buffer of size `buf_len`. `stun_validate` (stun/ is
    not under src/) is abstracted as a parameter. Returns the number of octets
    handed to the caller and whether `conn_check_handle_inbound_stun` was
    invoked. -/
def _nice_agent_recv (stun_validate : List Nat → Int) (buf_len : Nat)
    (dgram : List Nat) : Nat × Bool :=
  if dgram.length = 0 then (0, false)
  else if buf_len < dgram.length then (0, false)
  else
    match dgram with
    | [] => (0, false)
    | b0 :: _ =>
      if b0 &&& 0xc0 = 0x80 then (dgram.length, false)
      else if 0 < stun_validate dgram then (0, true)
      else (dgram.length, false)

/-- Modelled from the spec: length defaults for stream credentials (stream.h is
    not under src/); §6 gives the concrete defaults ufrag 8, pwd 32. -/
def NICE_STREAM_DEF_UFRAG : Nat := 8

/-- Modelled from the spec: see `NICE_STREAM_DEF_UFRAG`. -/
def NICE_STREAM_DEF_PWD : Nat := 32

/-- A zero-initialised component with the given 1-based id. -/
def component_new (id : Nat) : Component :=
  { id := id, state := NiceComponentState.disconnected, sockets := [],
    local_candidates := [], remote_candidates := [],
    selected_pair := { local_candidate := none, remote_candidate := none },
    media_after_tick := false, gsources := [] }

/-- Modelled from the spec: `stream_new` (stream.c is not under src/); a stream
    with `n_components` components with 1-based ids, zeroed credential buffers
    and a cleared initial-binding-request flag. -/
def stream_new (n_components : Nat) : Stream :=
  { id := 0,
    components := (List.range n_components).map (fun n => component_new (n + 1)),
    local_ufrag := [], local_password := [], remote_ufrag := [],
    remote_password := [], initial_binding_request_received := false }

/-- The candidate priority formula of spec §3. -/
def candidate_ice_priority (type_pref local_pref component_id : Nat) : Nat :=
  2 ^ 24 * type_pref + 2 ^ 8 * local_pref + (256 - component_id)

/-- Modelled from the spec: `discovery_add_local_host_candidate` (discovery.c is
    not under src/). Binds a UDP socket to `addr`, creates a host candidate
    owning it, appends both to the component, and returns the candidate; `ok`
    is the combined socket/allocation outcome (NULL on failure). -/
def discovery_add_local_host_candidate (stream : Stream) (component_id : Nat)
    (addr : NiceAddress) (ok : Bool) (fileno : Nat) :
    Option (Stream × NiceCandidate) :=
  if ok then
    let sock : NiceUDPSocket := { fileno := fileno }
    let cand : NiceCandidate :=
      { stream_id := stream.id, component_id := component_id,
        type := CandidateType.host, transport := CandidateTransport.udp,
        addr := addr, base_addr := addr,
        priority := candidate_ice_priority 126 65535 component_id,
        sockptr := sock, foundation := "1", username := none, password := none }
    let stream1 : Stream :=
      { stream with
        components :=
          updateFirstBy (fun c => c.id == component_id)
            (fun c =>
              { c with
                sockets := c.sockets ++ [sock],
                local_candidates := c.local_candidates ++ [cand] })
            stream.components }
    some (stream1, cand)
  else none

/-- Allocation and socket oracles for one `nice_agent_add_stream` call, indexed
    by local-address position and component index where several allocations of
    the same kind happen. -/
structure AddStreamOracle where
  stream_new_ok : Bool
  streams_append_ok : Bool
  host_ok : Nat → Nat → Bool
  host_fileno : Nat → Nat → Nat
  cdisco_ok : Nat → Nat → Bool
  disco_append1_ok : Nat → Nat → Bool
  disco_append2_ok : Nat → Nat → Bool
  gsource_ok : Nat → Bool

/-- The loop state of `nice_agent_add_stream`'s gathering phase: the stream
    being built (already linked into `agent->streams` in C, written back at the
    end here) and the discovery bookkeeping. -/
structure GatherState where
  stream : Stream
  discovery_list : List CandidateDiscovery
  discovery_unsched_items : Nat
deriving DecidableEq

/-- One iteration of the inner `for (n = 0; n < n_components; n++)` loop of
    `nice_agent_add_stream`: create the host candidate for component `n+1` and,
    in full mode with a STUN server configured, enqueue the server-reflexive
    discovery. The boolean is false on the failure paths where the C code sets
    `stream->id = 0` and `break`s out of the inner loop. -/
def gatherStep (full_mode : Bool) (stun_server_ip : Option String)
    (stun_server_port : Nat) (orc : AddStreamOracle) (ai : Nat)
    (addr : NiceAddress) (n : Nat) (st : GatherState) : GatherState × Bool :=
  match discovery_add_local_host_candidate st.stream (n + 1) addr
      (orc.host_ok ai n) (orc.host_fileno ai n) with
  | none => ({ st with stream := { st.stream with id := 0 } }, false)
  | some (stream1, host_candidate) =>
    let st1 : GatherState := { st with stream := stream1 }
    match stun_server_ip with
    | some ip =>
      if full_mode then
        let r := priv_add_srv_rfx_candidate_discovery st1.discovery_list
          st1.discovery_unsched_items host_candidate ip stun_server_port
          st1.stream (n + 1) addr (orc.cdisco_ok ai n)
          (orc.disco_append1_ok ai n) (orc.disco_append2_ok ai n)
        if r.2.2 then
          ({ stream := st1.stream, discovery_list := r.1,
             discovery_unsched_items := r.2.1 }, true)
        else ({ st1 with stream := { st1.stream with id := 0 } }, false)
      else (st1, true)
    | none => (st1, true)

/-- agent.c: the inner component loop of `nice_agent_add_stream` for one local
    address; `n` is the current component index, `rem` the number of components
    still to do, and a false continue-flag from `gatherStep` is the `break`. -/
def gatherComponentsLoop (full_mode : Bool) (stun_server_ip : Option String)
    (stun_server_port : Nat) (orc : AddStreamOracle) (ai : Nat)
    (addr : NiceAddress) : Nat → Nat → GatherState → GatherState
  | _, 0, st => st
  | n, rem + 1, st =>
    let s := gatherStep full_mode stun_server_ip stun_server_port orc ai addr n st
    if s.2 then
      gatherComponentsLoop full_mode stun_server_ip stun_server_port orc ai addr
        (n + 1) rem s.1
    else s.1

/-- What the gathering loop preserves of its state: the stream's credentials
    are untouched and the stream id is either kept or zeroed by a break. -/
def PreservesOf (st res : GatherState) : Prop :=
  res.stream.local_ufrag = st.stream.local_ufrag ∧
  res.stream.local_password = st.stream.local_password ∧
  (res.stream.id = st.stream.id ∨ res.stream.id = 0)

/-- agent.c: the outer loop of `nice_agent_add_stream` over
    `agent->local_addresses`; it keeps iterating even after an inner-loop
    break zeroed the stream id. -/
def gatherAddressesLoop (full_mode : Bool) (stun_server_ip : Option String)
    (stun_server_port : Nat) (orc : AddStreamOracle) (n_components : Nat) :
    List NiceAddress → Nat → GatherState → GatherState
  | [], _, st => st
  | addr :: rest, ai, st =>
    gatherAddressesLoop full_mode stun_server_ip stun_server_port orc
      n_components rest (ai + 1)
      (gatherComponentsLoop full_mode stun_server_ip stun_server_port orc ai
        addr 0 n_components st)

/-- agent.c: the socket-attaching inner loop of `priv_attach_new_stream` over
    one component's sockets; `k` numbers the created sources. On an append
    failure the source is destroyed and FALSE returned. -/
def attachSockets (ok : Nat → Bool) : List NiceUDPSocket → Nat → List Nat →
    List Nat × Nat × Bool
  | [], k, gs => (gs, k, true)
  | _ :: rest, k, gs =>
    if ok k then attachSockets ok rest (k + 1) (gs ++ [k])
    else (gs, k + 1, false)

/-- agent.c: the component loop of `priv_attach_new_stream`; aborts on the
    first failed source append, keeping the sources attached so far. -/
def attachComponents (ok : Nat → Bool) : List Component → Nat →
    List Component × Nat × Bool
  | [], k => ([], k, true)
  | c :: rest, k =>
    let r := attachSockets ok c.sockets k c.gsources
    if r.2.2 then
      let rr := attachComponents ok rest r.2.1
      ({ c with gsources := r.1 } :: rr.1, rr.2.1, rr.2.2)
    else ({ c with gsources := r.1 } :: rest, r.2.1, false)

/-- agent.c: `priv_attach_new_stream` (its boolean result is ignored by
    `nice_agent_add_stream`). -/
def priv_attach_new_stream (orc : AddStreamOracle) (stream : Stream) : Stream :=
  { stream with components := (attachComponents orc.gsource_ok stream.components 0).1 }

/-- The local ufrag `nice_agent_add_stream` generates from the agent's RNG. -/
def streamUfragOf (agent : NiceAgent) : List Nat :=
  (nice_rng_generate_bytes_print agent.rng (NICE_STREAM_DEF_UFRAG - 1)).1

/-- The local password `nice_agent_add_stream` generates from the agent's RNG,
    after the ufrag. -/
def streamPwdOf (agent : NiceAgent) : List Nat :=
  (nice_rng_generate_bytes_print
    (nice_rng_generate_bytes_print agent.rng (NICE_STREAM_DEF_UFRAG - 1)).2
    (NICE_STREAM_DEF_PWD - 1)).1

/-- The RNG state after `nice_agent_add_stream` generated ufrag and password. -/
def streamRngAfter (agent : NiceAgent) : NiceRNG :=
  (nice_rng_generate_bytes_print
    (nice_rng_generate_bytes_print agent.rng (NICE_STREAM_DEF_UFRAG - 1)).2
    (NICE_STREAM_DEF_PWD - 1)).2

/-- The gathering phase of `nice_agent_add_stream`: the stream is created, gets
    the next stream id and fresh credentials, and the per-address loop runs. -/
def addStreamGather (agent : NiceAgent) (n_components : Nat)
    (orc : AddStreamOracle) : GatherState :=
  gatherAddressesLoop agent.full_mode agent.stun_server_ip agent.stun_server_port
    orc n_components agent.local_addresses 0
    { stream := { stream_new n_components with
        id := agent.next_stream_id,
        local_ufrag := streamUfragOf agent,
        local_password := streamPwdOf agent },
      discovery_list := agent.discovery_list,
      discovery_unsched_items := agent.discovery_unsched_items }

/-- The stream as it stands at the end of `nice_agent_add_stream` (after the
    conditional `priv_attach_new_stream`). -/
def addStreamFinalStream (agent : NiceAgent) (n_components : Nat)
    (orc : AddStreamOracle) : Stream :=
  let stF := addStreamGather agent n_components orc
  if agent.main_context_set ∧ 0 < stF.stream.id then
    priv_attach_new_stream orc stF.stream
  else stF.stream

/-- The agent as it stands at the end of a `nice_agent_add_stream` call that
    allocated and linked its stream. -/
def addStreamAgent (agent : NiceAgent) (n_components : Nat)
    (orc : AddStreamOracle) : NiceAgent :=
  { agent with
    streams := agent.streams ++ [addStreamFinalStream agent n_components orc],
    next_stream_id := agent.next_stream_id + 1,
    rng := streamRngAfter agent,
    discovery_list := (addStreamGather agent n_components orc).discovery_list,
    discovery_unsched_items :=
      (addStreamGather agent n_components orc).discovery_unsched_items }

/-- agent.c: `nice_agent_add_stream`. Returns the final agent, the returned
    stream id (`stream->id`, 0 on failure) and the signals emitted during the
    call (`discoveryScheduled` standing for the `discovery_schedule` start). -/
def nice_agent_add_stream (agent : NiceAgent) (n_components : Nat)
    (orc : AddStreamOracle) : NiceAgent × Nat × List AgentSignal :=
  if agent.local_addresses = [] then (agent, 0, [])
  else if orc.stream_new_ok = false then (agent, 0, [])
  else if orc.streams_append_ok = false then (agent, 0, [])
  else
    if (addStreamAgent agent n_components orc).discovery_unsched_items = 0 then
      (addStreamAgent agent n_components orc,
       (addStreamFinalStream agent n_components orc).id,
       [AgentSignal.candidateGatheringDone])
    else
      (addStreamAgent agent n_components orc,
       (addStreamFinalStream agent n_components orc).id,
       [AgentSignal.discoveryScheduled])

/-- agent.c: `nice_agent_get_local_credentials`, called with valid out-pointers;
    `some` models the TRUE result, carrying (ufrag, pwd). -/
def nice_agent_get_local_credentials (agent : NiceAgent) (stream_id : Nat) :
    Option (List Nat × List Nat) :=
  match agent_find_stream agent stream_id with
  | none => none
  | some s => some (s.local_ufrag, s.local_password)

/-- agent.c: `agent_signal_initial_binding_request_received`, acting on the
    stream it is handed; returns the updated stream and the emitted signals. -/
def agent_signal_initial_binding_request_received (stream : Stream) :
    Stream × List AgentSignal :=
  if stream.initial_binding_request_received ≠ true then
    ({ stream with initial_binding_request_received := true },
     [AgentSignal.initialBindingRequestReceived stream.id])
  else (stream, [])

/-- `n` successive invocations of
    `agent_signal_initial_binding_request_received` on the same stream,
    collecting all emitted signals. -/
def iterate_initial_binding_request_received : Nat → Stream →
    Stream × List AgentSignal
  | 0, s => (s, [])
  | n + 1, s =>
    let r1 := agent_signal_initial_binding_request_received s
    let r2 := iterate_initial_binding_request_received n r1.1
    (r2.1, r1.2 ++ r2.2)

/-- Allocation and conncheck outcomes for one `priv_add_remote_candidate` call:
    `nice_candidate_new`, the `g_slist_append`, and the return value of
    `conn_check_add_for_candidate` (conncheck.c is not under src/). -/
structure RemoteAddOracle where
  candidate_ok : Bool
  append_ok : Bool
  conn_check_result : Int

/-- agent.c: `priv_add_remote_candidate`. `none` models the dereference of a
    NULL component pointer (`agent_find_component` returned TRUE with a NULL
    component and the code then appends to `component->remote_candidates`). -/
def priv_add_remote_candidate (agent : NiceAgent) (stream_id component_id : Nat)
    (type : CandidateType) (addr related_addr : Option NiceAddress)
    (transport : CandidateTransport) (priority : Nat)
    (username password : Option String) (foundation : Option String)
    (orc : RemoteAddOracle) : Option (NiceAgent × Bool) :=
  match agent_find_component agent stream_id component_id with
  | none => some (agent, false)
  | some (_, none) => none
  | some (_, some _) =>
    if orc.candidate_ok then
      if orc.append_ok then
        let cand : NiceCandidate :=
          { stream_id := stream_id, component_id := component_id, type := type,
            transport := transport,
            addr := addr.getD zeroAddress,
            base_addr := related_addr.getD zeroAddress,
            priority := priority, sockptr := { fileno := 0 },
            foundation := foundation.getD "",
            username := username, password := password }
        let agent1 : NiceAgent :=
          updateComponentIn agent stream_id component_id
            (fun c => { c with remote_candidates := c.remote_candidates ++ [cand] })
        if orc.conn_check_result < 0 then some (agent1, false)
        else some (agent1, true)
      else some (agent, false)
    else some (agent, false)

/-- A candidate descriptor (`NiceCandidateDesc` in agent.h / spec §6). -/
structure NiceCandidateDesc where
  foundation : Option String
  component_id : Nat
  transport : CandidateTransport
  priority : Nat
  addr : Option NiceAddress
  type : CandidateType
  related_addr : Option NiceAddress
deriving DecidableEq

/-- agent.c: the `for (i = candidates; i && added >= 0; ...)` loop of
    `nice_agent_set_remote_candidates`. Also records, in order, the boolean
    result of every `priv_add_remote_candidate` invocation it makes. -/
def set_remote_candidates_loop (stream_id component_id : Nat)
    (orc : Nat → RemoteAddOracle) :
    List NiceCandidateDesc → Nat → NiceAgent → Int →
    Option (NiceAgent × Int × List Bool)
  | [], _, agent, added => some (agent, added, [])
  | d :: rest, k, agent, added =>
    if added < 0 then some (agent, added, [])
    else
      match priv_add_remote_candidate agent stream_id component_id d.type d.addr
          d.related_addr d.transport d.priority none none d.foundation (orc k) with
      | none => none
      | some (agent1, res) =>
        match set_remote_candidates_loop stream_id component_id orc rest (k + 1)
            agent1 (if res then added + 1 else -1) with
        | none => none
        | some (agent2, added2, tr) => some (agent2, added2, res :: tr)

/-- agent.c: `nice_agent_set_remote_candidates`. The result carries the final
    agent, the returned count, the per-descriptor outcomes, and whether
    `conn_check_schedule_next` was invoked (conncheck.c is not under src/; only
    the fact of the call matters). -/
def nice_agent_set_remote_candidates (agent : NiceAgent)
    (stream_id component_id : Nat) (candidates : List NiceCandidateDesc)
    (orc : Nat → RemoteAddOracle) :
    Option (NiceAgent × Int × List Bool × Bool) :=
  match set_remote_candidates_loop stream_id component_id orc candidates 0 agent 0 with
  | none => none
  | some (agent1, added, tr) => some (agent1, added, tr, decide (0 < added))

/-- Modelled from the spec: `conn_check_prune_stream` (conncheck.c is not under
    src/); per agent.c's call-site comment it removes the items with matching
    stream_ids from the conncheck list. -/
def conn_check_prune_stream (agent : NiceAgent) (stream_id : Nat) : NiceAgent :=
  { agent with conncheck_list :=
      agent.conncheck_list.filter (fun c => c.stream_id != stream_id) }

/-- Modelled from the spec: `discovery_prune_stream` (discovery.c is not under
    src/); per agent.c's call-site comment it removes the items with matching
    stream_ids from the discovery list. -/
def discovery_prune_stream (agent : NiceAgent) (stream_id : Nat) : NiceAgent :=
  { agent with discovery_list :=
      agent.discovery_list.filter (fun d => d.stream_id != stream_id) }

/-- agent.c: `priv_deattach_stream` — destroys every attached source of the
    stream's components and clears the `gsources` lists. -/
def priv_deattach_stream (stream : Stream) : Stream :=
  { stream with components := stream.components.map (fun c => { c with gsources := [] }) }

/-- agent.c: `priv_remove_keepalive_timer`. -/
def priv_remove_keepalive_timer (agent : NiceAgent) : NiceAgent :=
  if agent.keepalive_timer_id ≠ 0 then { agent with keepalive_timer_id := 0 }
  else agent

/-- agent.c: `nice_agent_remove_stream`. `priv_deattach_stream` mutates only the
    stream that is removed and freed right after, so its effect on the final
    agent is subsumed by the removal. -/
def nice_agent_remove_stream (agent : NiceAgent) (stream_id : Nat) : NiceAgent :=
  match agent_find_stream agent stream_id with
  | none => agent
  | some stream =>
    let a1 := conn_check_prune_stream agent stream_id
    let a2 := discovery_prune_stream a1 stream_id
    let _removed := priv_deattach_stream stream
    let a3 : NiceAgent :=
      { a2 with streams := removeFirstBy (fun s => s.id == stream_id) a2.streams }
    if a3.streams = [] then priv_remove_keepalive_timer a3 else a3

/-! Concrete fixtures used to evaluate the embedded operations. -/

/-- A local host address. -/
def addrHostW : NiceAddress := { family := 4, addr_bytes := [127, 0, 0, 1], port := 5000 }

/-- A remote address. -/
def addrRemoteW : NiceAddress := { family := 4, addr_bytes := [192, 0, 2, 7], port := 6000 }

/-- A local host candidate owning socket 7. -/
def candLocalW : NiceCandidate :=
  { stream_id := 1, component_id := 1, type := CandidateType.host,
    transport := CandidateTransport.udp, addr := addrHostW, base_addr := addrHostW,
    priority := candidate_ice_priority 126 65535 1, sockptr := { fileno := 7 },
    foundation := "1", username := none, password := none }

/-- A remote candidate at `addrRemoteW`. -/
def candRemoteW : NiceCandidate :=
  { stream_id := 1, component_id := 1, type := CandidateType.host,
    transport := CandidateTransport.udp, addr := addrRemoteW, base_addr := addrRemoteW,
    priority := 42, sockptr := { fileno := 0 },
    foundation := "1", username := none, password := none }

/-- A component with a selected pair (`candLocalW`, `candRemoteW`). -/
def componentPairW : Component :=
  { component_new 1 with
    sockets := [{ fileno := 7 }],
    local_candidates := [candLocalW],
    remote_candidates := [candRemoteW],
    selected_pair := { local_candidate := some candLocalW,
                       remote_candidate := some candRemoteW } }

/-- A stream with id 1 holding `componentPairW`. -/
def streamPairW : Stream :=
  { stream_new 1 with id := 1, components := [componentPairW] }

/-- An agent owning `streamPairW`. -/
def agentPairW : NiceAgent :=
  { streams := [streamPairW], local_addresses := [addrHostW], next_stream_id := 2,
    discovery_list := [], discovery_unsched_items := 0, conncheck_list := [],
    keepalive_timer_id := 3, rng := { supply := [1, 2, 3] }, full_mode := true,
    stun_server_ip := none, stun_server_port := 3478, main_context_set := false }

/-- An agent with no streams at all. -/
def agentNoStreamsW : NiceAgent :=
  { streams := [], local_addresses := [], next_stream_id := 1,
    discovery_list := [], discovery_unsched_items := 0, conncheck_list := [],
    keepalive_timer_id := 0, rng := { supply := [] }, full_mode := true,
    stun_server_ip := none, stun_server_port := 3478, main_context_set := false }

/-- The discovery record a successful srv-rflx enqueue for `candLocalW` on
    `streamPairW` builds. -/
def cdiscoW : CandidateDiscovery :=
  { type := CandidateType.serverReflexive, socket := 7, nicesock := { fileno := 7 },
    server_addr := "stun.example", server_port := 3478, interface_addr := addrHostW,
    stream_id := 1, component := some 1 }

/-- A `stun_validate` oracle accepting everything. -/
def svOneW : List Nat → Int := fun _ => 1

/-- An agent ready for `nice_agent_add_stream`: one local address, no streams
    yet, no STUN server configured. -/
def agentAddW : NiceAgent :=
  { streams := [], local_addresses := [addrHostW], next_stream_id := 1,
    discovery_list := [], discovery_unsched_items := 0, conncheck_list := [],
    keepalive_timer_id := 0, rng := { supply := List.range 64 }, full_mode := true,
    stun_server_ip := none, stun_server_port := 3478, main_context_set := false }

/-- An all-allocations-succeed oracle for `nice_agent_add_stream`. -/
def orcAllOk : AddStreamOracle :=
  { stream_new_ok := true, streams_append_ok := true,
    host_ok := fun _ _ => true, host_fileno := fun ai n => 10 + ai + n,
    cdisco_ok := fun _ _ => true, disco_append1_ok := fun _ _ => true,
    disco_append2_ok := fun _ _ => true, gsource_ok := fun _ => true }

/-- The result of adding a one-component stream to `agentAddW`. -/
def addResW : NiceAgent × Nat × List AgentSignal :=
  nice_agent_add_stream agentAddW 1 orcAllOk

/-- A remote-candidate descriptor. -/
def descW1 : NiceCandidateDesc :=
  { foundation := some "f1", component_id := 1, transport := CandidateTransport.udp,
    priority := 9, addr := some addrRemoteW, type := CandidateType.host,
    related_addr := none }

/-- A second remote-candidate descriptor. -/
def descW2 : NiceCandidateDesc :=
  { foundation := some "f2", component_id := 1, transport := CandidateTransport.udp,
    priority := 8, addr := some { family := 4, addr_bytes := [192, 0, 2, 8], port := 6001 },
    type := CandidateType.serverReflexive, related_addr := some addrRemoteW }

/-- An all-success oracle for `priv_add_remote_candidate` invocations. -/
def remOrcAllOk : Nat → RemoteAddOracle :=
  fun _ => { candidate_ok := true, append_ok := true, conn_check_result := 0 }

/-- The result of setting two remote candidates on `agentPairW`. -/
def srcOutW : NiceAgent × Int × List Bool × Bool :=
  (nice_agent_set_remote_candidates agentPairW 1 1 [descW1, descW2] remOrcAllOk).getD
    (agentPairW, 0, [], false)

/-- A second stream, with id 2, for removal scenarios. -/
def streamTwoW : Stream := { stream_new 1 with id := 2 }

/-- An agent with two streams and per-stream conncheck and discovery entries. -/
def agentTwoStreamsW : NiceAgent :=
  { streams := [streamPairW, streamTwoW], local_addresses := [addrHostW],
    next_stream_id := 3,
    discovery_list := [cdiscoW, { cdiscoW with stream_id := 2 }],
    discovery_unsched_items := 0,
    conncheck_list := [{ stream_id := 1, component_id := 1, pair_id := 0 },
                       { stream_id := 2, component_id := 1, pair_id := 1 }],
    keepalive_timer_id := 9, rng := { supply := [] }, full_mode := true,
    stun_server_ip := none, stun_server_port := 3478, main_context_set := false }

/-! Helper lemmas about list search and first-match updates. -/

theorem find?_cons_true {α : Type} {p : α → Bool} {x : α} {xs : List α}
    (h : p x = true) : (x :: xs).find? p = some x := by
  simp [List.find?, h]

theorem find?_cons_false {α : Type} {p : α → Bool} {x : α} {xs : List α}
    (h : p x = false) : (x :: xs).find? p = xs.find? p := by
  simp [List.find?, h]

theorem find?_updateFirstBy {α : Type} (p : α → Bool) (f : α → α)
    (hf : ∀ x, p (f x) = p x) :
    ∀ l : List α, (updateFirstBy p f l).find? p = (l.find? p).map f
  | [] => rfl
  | x :: xs => by
    cases hx : p x with
    | true =>
      rw [updateFirstBy, if_pos hx, find?_cons_true ((hf x).trans hx),
        find?_cons_true hx, Option.map_some']
    | false =>
      rw [updateFirstBy, if_neg (by simp [hx]), find?_cons_false hx,
        find?_cons_false hx, find?_updateFirstBy p f hf xs]

theorem find?_none_of_all {α : Type} {p : α → Bool} :
    ∀ {l : List α}, (∀ x ∈ l, p x = false) → l.find? p = none
  | [], _ => rfl
  | x :: xs, h => by
    rw [find?_cons_false (h x (by simp)),
      find?_none_of_all (fun y hy => h y (by simp [hy]))]

theorem find?_append_of_none {α : Type} {p : α → Bool} :
    ∀ {l1 : List α} (l2 : List α), l1.find? p = none →
      (l1 ++ l2).find? p = l2.find? p
  | [], l2, _ => rfl
  | x :: xs, l2, h => by
    cases hx : p x with
    | true => rw [find?_cons_true hx] at h; exact absurd h (by simp)
    | false =>
      rw [find?_cons_false hx] at h
      rw [List.cons_append, find?_cons_false hx, find?_append_of_none l2 h]

theorem find?_removeFirstBy_other {α : Type} (p q : α → Bool)
    (hpq : ∀ x, q x = true → p x = false) :
    ∀ l : List α, (removeFirstBy p l).find? q = l.find? q
  | [] => rfl
  | x :: xs => by
    cases hx : p x with
    | true =>
      rw [removeFirstBy, if_pos hx]
      cases hq : q x with
      | true => exact absurd hx (by simp [hpq x hq])
      | false => rw [find?_cons_false hq]
    | false =>
      rw [removeFirstBy, if_neg (by simp [hx])]
      cases hq : q x with
      | true => rw [find?_cons_true hq, find?_cons_true hq]
      | false =>
        rw [find?_cons_false hq, find?_cons_false hq,
          find?_removeFirstBy_other p q hpq xs]

theorem agent_find_component_elim {agent : NiceAgent} {sid cid : Nat}
    {s : Stream} {c : Component}
    (hfind : agent_find_component agent sid cid = some (s, some c)) :
    agent_find_stream agent sid = some s ∧
    stream_find_component_by_id s cid = some c := by
  unfold agent_find_component at hfind
  cases h1 : agent_find_stream agent sid with
  | none => rw [h1] at hfind; exact absurd hfind (by simp)
  | some s1 =>
    rw [h1] at hfind
    simp only [Option.some.injEq, Prod.mk.injEq] at hfind
    obtain ⟨he, hc⟩ := hfind
    subst he
    exact ⟨rfl, hc⟩

/-- C1: `nice_agent_send` on a looked-up component without a selected pair sends
    nothing, returns -1 and leaves the agent unchanged; on a component with a
    selected pair the payload is handed to `nice_udp_socket_send` on the local
    candidate's socket towards the remote candidate's address, the component's
    `media_after_tick` flag becomes true, and the payload length is returned. -/
theorem nice_agent_send_selected_pair (agent : NiceAgent) (sid cid len : Nat)
    (buf : List Nat) (s : Stream) (c : Component)
    (hfind : agent_find_component agent sid cid = some (s, some c)) :
    (c.selected_pair.local_candidate = none →
      nice_agent_send agent sid cid len buf = some (agent, none, -1)) ∧
    (∀ lc rc, c.selected_pair.local_candidate = some lc →
      c.selected_pair.remote_candidate = some rc →
      nice_agent_send agent sid cid len buf =
        some (setMediaAfterTick agent sid cid,
              some { socket := lc.sockptr, dest := rc.addr, len := len,
                     payload := buf },
              (len : Int)) ∧
      agent_find_component (setMediaAfterTick agent sid cid) sid cid =
        some (streamMediaTrue s cid, some (mediaTrue c))) := by
  obtain ⟨hfs, hfc⟩ := agent_find_component_elim hfind
  constructor
  · intro h0
    simp [nice_agent_send, hfind, h0]
  · intro lc rc h1 h2
    constructor
    · simp [nice_agent_send, hfind, h1, h2]
    · have hstreams :
          (setMediaAfterTick agent sid cid).streams.find? (fun st => st.id == sid)
            = some (streamMediaTrue s cid) := by
        show (updateFirstBy (fun st => st.id == sid)
            (fun st => streamMediaTrue st cid) agent.streams).find?
            (fun st => st.id == sid) = some (streamMediaTrue s cid)
        rw [find?_updateFirstBy (fun st => st.id == sid)
          (fun st => streamMediaTrue st cid) (fun x => rfl) agent.streams]
        rw [show agent.streams.find? (fun st => st.id == sid) = some s from hfs]
        rfl
      have hcomp :
          stream_find_component_by_id (streamMediaTrue s cid) cid
            = some (mediaTrue c) := by
        show (updateFirstBy (fun comp => comp.id == cid) mediaTrue
            s.components).find? (fun comp => comp.id == cid) = some (mediaTrue c)
        rw [find?_updateFirstBy (fun comp => comp.id == cid) mediaTrue
          (fun x => rfl) s.components]
        rw [show s.components.find? (fun comp => comp.id == cid) = some c from hfc]
        rfl
      unfold agent_find_component agent_find_stream
      rw [hstreams]
      simp [hcomp]

/-- Witness for C1 at a concrete agent with a selected pair. -/
theorem nice_agent_send_selected_pair_witness :
    nice_agent_send agentPairW 1 1 2 [10, 20] =
      some (setMediaAfterTick agentPairW 1 1,
            some { socket := candLocalW.sockptr, dest := candRemoteW.addr,
                   len := 2, payload := [10, 20] },
            (2 : Int)) :=
  ((nice_agent_send_selected_pair agentPairW 1 1 2 [10, 20] streamPairW
      componentPairW (by decide)).2 candLocalW candRemoteW rfl rfl).1

/-- C10: the claim fails on the code. `nice_agent_send` ignores the FALSE result
    of `agent_find_component`, so with a stream id that matches no stream it
    dereferences the never-initialised component pointer — modelled as `none`
    (undefined behavior) — instead of returning -1 without reading component
    state. -/
theorem nice_agent_send_missing_component_ub :
    nice_agent_send agentNoStreamsW 1 1 3 [1, 2, 3] = none := rfl

/-- C2: the claim fails on the code. A fully successful enqueue (record
    allocated, both appends succeed) links the same `CandidateDiscovery` record
    into the discovery list twice — once before its fields are filled in and
    once after — while `discovery_unsched_items` grows by one and the function
    reports success. -/
theorem priv_add_srv_rfx_double_append :
    (priv_add_srv_rfx_candidate_discovery [] 0 candLocalW "stun.example" 3478
        streamPairW 1 addrHostW true true true).1 = [cdiscoW, cdiscoW] ∧
    (priv_add_srv_rfx_candidate_discovery [] 0 candLocalW "stun.example" 3478
        streamPairW 1 addrHostW true true true).1.count cdiscoW = 2 ∧
    (priv_add_srv_rfx_candidate_discovery [] 0 candLocalW "stun.example" 3478
        streamPairW 1 addrHostW true true true).2 = (1, true) := by
  refine ⟨?_, ?_, ?_⟩ <;> decide

/-- C3: the inbound dispatcher on a received datagram that fits the buffer — a
    first byte whose top two bits are 10 is media and the payload length is
    returned without invoking the STUN path; otherwise a positive
    `stun_validate` routes the datagram to `conn_check_handle_inbound_stun` and
    0 bytes are returned; otherwise the payload length is returned unchanged. -/
theorem recv_dispatch_spec (stun_validate : List Nat → Int) (buf_len b0 : Nat)
    (rest : List Nat) (hfit : (b0 :: rest).length ≤ buf_len) :
    (b0 &&& 0xc0 = 0x80 →
      _nice_agent_recv stun_validate buf_len (b0 :: rest)
        = ((b0 :: rest).length, false)) ∧
    (¬ b0 &&& 0xc0 = 0x80 → 0 < stun_validate (b0 :: rest) →
      _nice_agent_recv stun_validate buf_len (b0 :: rest) = (0, true)) ∧
    (¬ b0 &&& 0xc0 = 0x80 → stun_validate (b0 :: rest) ≤ 0 →
      _nice_agent_recv stun_validate buf_len (b0 :: rest)
        = ((b0 :: rest).length, false)) := by
  have h0 : ¬ ((b0 :: rest).length = 0) := by simp
  have h1 : ¬ (buf_len < (b0 :: rest).length) := by omega
  have hfit2 : rest.length + 1 ≤ buf_len := by simpa using hfit
  refine ⟨?_, ?_, ?_⟩
  · intro hrtp
    simp [_nice_agent_recv, h0, h1, hrtp]
    omega
  · intro hrtp hstun
    simp [_nice_agent_recv, h0, h1, hrtp, hstun]
    omega
  · intro hrtp hstun
    simp [_nice_agent_recv, h0, h1, hrtp, not_lt.mpr hstun]
    omega

/-- Witness for C3: a media datagram (first byte 0x85) is returned whole; a
    non-media datagram accepted by `stun_validate` yields 0 bytes and goes to
    the conncheck handler. -/
theorem recv_dispatch_witness :
    ((0x85 : Nat) &&& 0xc0 = 0x80 ∧
      _nice_agent_recv svOneW 100 [0x85, 1, 2] = (3, false)) ∧
    (¬ (0x15 : Nat) &&& 0xc0 = 0x80 ∧
      _nice_agent_recv svOneW 100 [0x15, 1, 2] = (0, true)) :=
  ⟨⟨by decide,
    (recv_dispatch_spec svOneW 100 0x85 [1, 2] (by decide)).1 (by decide)⟩,
   ⟨by decide,
    (recv_dispatch_spec svOneW 100 0x15 [1, 2] (by decide)).2.1 (by decide)
      (by decide)⟩⟩

theorem iterate_ibrr_flag_true (n : Nat) (s : Stream)
    (h : s.initial_binding_request_received = true) :
    iterate_initial_binding_request_received n s = (s, []) := by
  induction n with
  | zero => rfl
  | succ m ih =>
    simp [iterate_initial_binding_request_received,
      agent_signal_initial_binding_request_received, h, ih]

/-- C6: the initial-binding-request-received signal fires at most once per
    stream: on a stream with the flag still cleared the call sets the flag and
    emits the signal for that stream, on a stream with the flag set it emits
    nothing, and any number of consecutive invocations emits at most one
    signal in total. -/
theorem initial_binding_request_received_once (s : Stream) (n : Nat)
    (h : s.initial_binding_request_received = false) :
    agent_signal_initial_binding_request_received s =
      ({ s with initial_binding_request_received := true },
       [AgentSignal.initialBindingRequestReceived s.id]) ∧
    (∀ t : Stream, t.initial_binding_request_received = true →
      agent_signal_initial_binding_request_received t = (t, [])) ∧
    (iterate_initial_binding_request_received n s).2.length ≤ 1 := by
  have hfirst : agent_signal_initial_binding_request_received s =
      ({ s with initial_binding_request_received := true },
       [AgentSignal.initialBindingRequestReceived s.id]) := by
    simp [agent_signal_initial_binding_request_received, h]
  refine ⟨hfirst, ?_, ?_⟩
  · intro t ht
    simp [agent_signal_initial_binding_request_received, ht]
  · cases n with
    | zero => simp [iterate_initial_binding_request_received]
    | succ m =>
      have hrest := iterate_ibrr_flag_true m
        { s with initial_binding_request_received := true } rfl
      simp [iterate_initial_binding_request_received, hfirst, hrest]

/-- Witness for C6 on a freshly created stream, iterated three times. -/
theorem initial_binding_request_received_once_witness :
    agent_signal_initial_binding_request_received (stream_new 1) =
      ({ stream_new 1 with initial_binding_request_received := true },
       [AgentSignal.initialBindingRequestReceived (stream_new 1).id]) ∧
    (∀ t : Stream, t.initial_binding_request_received = true →
      agent_signal_initial_binding_request_received t = (t, [])) ∧
    (iterate_initial_binding_request_received 3 (stream_new 1)).2.length ≤ 1 :=
  initial_binding_request_received_once (stream_new 1) 3 rfl

theorem set_remote_candidates_loop_neg (sid cid : Nat)
    (orc : Nat → RemoteAddOracle) (cands : List NiceCandidateDesc) (k : Nat)
    (agent : NiceAgent) (added : Int) (h : added < 0) :
    set_remote_candidates_loop sid cid orc cands k agent added
      = some (agent, added, []) := by
  cases cands with
  | nil => rfl
  | cons d rest => simp [set_remote_candidates_loop, if_pos h]

theorem set_remote_candidates_loop_spec (sid cid : Nat)
    (orc : Nat → RemoteAddOracle) :
    ∀ (cands : List NiceCandidateDesc) (k : Nat) (agent : NiceAgent)
      (added0 : Int) (a2 : NiceAgent) (added : Int) (tr : List Bool),
      0 ≤ added0 →
      set_remote_candidates_loop sid cid orc cands k agent added0
        = some (a2, added, tr) →
      (false ∉ tr → added = added0 + cands.length ∧ tr.length = cands.length) ∧
      (false ∈ tr → added = -1 ∧
        ∃ kp, tr = List.replicate kp true ++ [false] ∧ kp + 1 ≤ cands.length)
  | [], k, agent, added0, a2, added, tr, h0, h => by
    simp only [set_remote_candidates_loop, Option.some.injEq,
      Prod.mk.injEq] at h
    obtain ⟨-, h2, h3⟩ := h
    subst h2
    subst h3
    simp
  | d :: rest, k, agent, added0, a2, added, tr, h0, h => by
    rw [set_remote_candidates_loop, if_neg (by omega : ¬ added0 < 0)] at h
    cases hp : priv_add_remote_candidate agent sid cid d.type d.addr
        d.related_addr d.transport d.priority none none d.foundation (orc k) with
    | none => rw [hp] at h; exact absurd h (by simp)
    | some pr =>
      obtain ⟨agent1, res⟩ := pr
      rw [hp] at h
      dsimp only at h
      cases hr : set_remote_candidates_loop sid cid orc rest (k + 1) agent1
          (if res then added0 + 1 else -1) with
      | none => rw [hr] at h; exact absurd h (by simp)
      | some out =>
        obtain ⟨a3, added3, tr3⟩ := out
        rw [hr] at h
        simp only [Option.some.injEq, Prod.mk.injEq] at h
        obtain ⟨hA, hB, hC⟩ := h
        subst hA
        subst hB
        subst hC
        cases res with
        | true =>
          have ih := set_remote_candidates_loop_spec sid cid orc rest (k + 1)
            agent1 (added0 + 1) a3 added3 tr3 (by omega) (by simpa using hr)
          constructor
          · intro hno
            have h3 : false ∉ tr3 := fun hm => hno (List.mem_cons_of_mem _ hm)
            obtain ⟨e1, e2⟩ := ih.1 h3
            constructor
            · rw [e1]
              simp only [List.length_cons]
              push_cast
              ring
            · simp [e2]
          · intro hm
            have h3 : false ∈ tr3 := by simpa using hm
            obtain ⟨e1, kp, e2, e3⟩ := ih.2 h3
            refine ⟨e1, kp + 1, ?_, ?_⟩
            · simp [List.replicate_succ, e2]
            · simp; omega
        | false =>
          rw [if_neg (by simp)] at hr
          rw [set_remote_candidates_loop_neg sid cid orc rest (k + 1) agent1
            (-1) (by omega)] at hr
          simp only [Option.some.injEq, Prod.mk.injEq] at hr
          obtain ⟨-, hr2, hr3⟩ := hr
          subst hr2
          subst hr3
          constructor
          · intro hno; exact absurd (by simp : false ∈ [false]) hno
          · intro _
            exact ⟨rfl, 0, by simp, by simp⟩

/-- C7: `nice_agent_set_remote_candidates` returns the number of candidates
    added when every `priv_add_remote_candidate` invocation succeeded; on any
    failure it returns -1 and the failing invocation is the last one made (no
    further descriptor is processed); `conn_check_schedule_next` is invoked iff
    the returned count is positive. -/
theorem set_remote_candidates_spec (agent : NiceAgent) (sid cid : Nat)
    (cands : List NiceCandidateDesc) (orc : Nat → RemoteAddOracle)
    (a2 : NiceAgent) (added : Int) (tr : List Bool) (sched : Bool)
    (h : nice_agent_set_remote_candidates agent sid cid cands orc
      = some (a2, added, tr, sched)) :
    (false ∉ tr → added = (cands.length : Int) ∧ tr.length = cands.length) ∧
    (false ∈ tr → added = -1 ∧
      ∃ kp, tr = List.replicate kp true ++ [false] ∧ kp + 1 ≤ cands.length) ∧
    (sched = true ↔ 0 < added) := by
  unfold nice_agent_set_remote_candidates at h
  cases hl : set_remote_candidates_loop sid cid orc cands 0 agent 0 with
  | none => rw [hl] at h; exact absurd h (by simp)
  | some out =>
    obtain ⟨a3, added3, tr3⟩ := out
    rw [hl] at h
    simp only [Option.some.injEq, Prod.mk.injEq] at h
    obtain ⟨h1, h2, h3, h4⟩ := h
    subst h1
    subst h2
    subst h3
    subst h4
    have main := set_remote_candidates_loop_spec sid cid orc cands 0 agent 0
      a3 added3 tr3 (by omega) hl
    refine ⟨?_, main.2, by simp⟩
    intro hno
    obtain ⟨e1, e2⟩ := main.1 hno
    exact ⟨by omega, e2⟩

/-- Witness for C7: two descriptors added successfully on a concrete agent. -/
theorem set_remote_candidates_witness :
    (false ∉ srcOutW.2.2.1 →
      srcOutW.2.1 = (([descW1, descW2] : List NiceCandidateDesc).length : Int) ∧
      srcOutW.2.2.1.length = ([descW1, descW2] : List NiceCandidateDesc).length) ∧
    (false ∈ srcOutW.2.2.1 → srcOutW.2.1 = -1 ∧
      ∃ kp, srcOutW.2.2.1 = List.replicate kp true ++ [false] ∧
        kp + 1 ≤ ([descW1, descW2] : List NiceCandidateDesc).length) ∧
    (srcOutW.2.2.2 = true ↔ 0 < srcOutW.2.1) :=
  set_remote_candidates_spec agentPairW 1 1 [descW1, descW2] remOrcAllOk
    srcOutW.1 srcOutW.2.1 srcOutW.2.2.1 srcOutW.2.2.2 (by decide)

theorem priv_remove_keepalive_streams (a : NiceAgent) :
    (priv_remove_keepalive_timer a).streams = a.streams := by
  unfold priv_remove_keepalive_timer
  split <;> rfl

theorem priv_remove_keepalive_fields (a : NiceAgent) :
    (priv_remove_keepalive_timer a).conncheck_list = a.conncheck_list ∧
    (priv_remove_keepalive_timer a).discovery_list = a.discovery_list ∧
    (priv_remove_keepalive_timer a).local_addresses = a.local_addresses ∧
    (priv_remove_keepalive_timer a).next_stream_id = a.next_stream_id := by
  unfold priv_remove_keepalive_timer
  split <;> exact ⟨rfl, rfl, rfl, rfl⟩

theorem priv_remove_keepalive_zero (a : NiceAgent) :
    (priv_remove_keepalive_timer a).keepalive_timer_id = 0 := by
  unfold priv_remove_keepalive_timer
  split
  · rfl
  · next hne => simpa using not_ne_iff.mp hne

theorem find?_removeFirstBy_self (sid : Nat) :
    ∀ l : List Stream, (l.map Stream.id).Nodup →
      (removeFirstBy (fun s => s.id == sid) l).find? (fun s => s.id == sid)
        = none
  | [], _ => rfl
  | x :: xs, hnd => by
    have hnd' : (∀ y ∈ xs, ¬ y.id = x.id) ∧ (xs.map Stream.id).Nodup := by
      simpa using hnd
    cases hx : (x.id == sid) with
    | true =>
      have hxid : x.id = sid := by simpa using hx
      rw [removeFirstBy, if_pos hx]
      apply find?_none_of_all
      intro y hy
      have hys : ¬ y.id = sid := fun he => hnd'.1 y hy (he.trans hxid.symm)
      simpa using hys
    | false =>
      rw [removeFirstBy, if_neg (by simp [hx]),
        @find?_cons_false Stream (fun s => s.id == sid) x
          (removeFirstBy (fun s => s.id == sid) xs) hx,
        find?_removeFirstBy_self sid xs hnd'.2]

theorem remove_stream_eq_of_found (agent : NiceAgent) (sid : Nat) (st : Stream)
    (hst : agent_find_stream agent sid = some st) :
    nice_agent_remove_stream agent sid =
      (if (removeFirstBy (fun s => s.id == sid) agent.streams) = [] then
        priv_remove_keepalive_timer
          { agent with
            streams := removeFirstBy (fun s => s.id == sid) agent.streams,
            conncheck_list :=
              agent.conncheck_list.filter (fun c => c.stream_id != sid),
            discovery_list :=
              agent.discovery_list.filter (fun d => d.stream_id != sid) }
      else
        { agent with
          streams := removeFirstBy (fun s => s.id == sid) agent.streams,
          conncheck_list :=
            agent.conncheck_list.filter (fun c => c.stream_id != sid),
          discovery_list :=
            agent.discovery_list.filter (fun d => d.stream_id != sid) }) := by
  unfold nice_agent_remove_stream
  rw [hst]
  exact rfl

/-- C9: `nice_agent_remove_stream` on an unknown id leaves the agent unchanged;
    on a found stream it removes exactly that stream from the stream list,
    drops exactly the conncheck and discovery entries carrying its id, leaves
    the local addresses and stream-id counter (and the other streams, which
    stay in the list unchanged) alone, cancels the keepalive timer exactly when
    the removed stream was the last one, keeps every other stream id resolving
    as before, and (when stream ids are unique) leaves the removed id
    unresolvable. -/
theorem remove_stream_frame (agent : NiceAgent) (sid : Nat) :
    (agent_find_stream agent sid = none →
      nice_agent_remove_stream agent sid = agent) ∧
    (∀ st, agent_find_stream agent sid = some st →
      (nice_agent_remove_stream agent sid).streams
          = removeFirstBy (fun s => s.id == sid) agent.streams ∧
      (nice_agent_remove_stream agent sid).conncheck_list
          = agent.conncheck_list.filter (fun c => c.stream_id != sid) ∧
      (nice_agent_remove_stream agent sid).discovery_list
          = agent.discovery_list.filter (fun d => d.stream_id != sid) ∧
      (nice_agent_remove_stream agent sid).local_addresses
          = agent.local_addresses ∧
      (nice_agent_remove_stream agent sid).next_stream_id
          = agent.next_stream_id ∧
      ((nice_agent_remove_stream agent sid).streams = [] →
        (nice_agent_remove_stream agent sid).keepalive_timer_id = 0) ∧
      ((nice_agent_remove_stream agent sid).streams ≠ [] →
        (nice_agent_remove_stream agent sid).keepalive_timer_id
          = agent.keepalive_timer_id) ∧
      (∀ sid2, ¬ sid2 = sid →
        agent_find_stream (nice_agent_remove_stream agent sid) sid2
          = agent_find_stream agent sid2) ∧
      ((agent.streams.map Stream.id).Nodup →
        agent_find_stream (nice_agent_remove_stream agent sid) sid = none)) := by
  constructor
  · intro h
    unfold nice_agent_remove_stream
    rw [h]
  · intro st hst
    rw [remove_stream_eq_of_found agent sid st hst]
    by_cases hemp : removeFirstBy (fun s => s.id == sid) agent.streams = []
    · rw [if_pos hemp]
      refine ⟨?_, ?_, ?_, ?_, ?_, ?_, ?_, ?_, ?_⟩
      · rw [priv_remove_keepalive_streams]
      · exact (priv_remove_keepalive_fields _).1
      · exact (priv_remove_keepalive_fields _).2.1
      · exact (priv_remove_keepalive_fields _).2.2.1
      · exact (priv_remove_keepalive_fields _).2.2.2
      · intro _; exact priv_remove_keepalive_zero _
      · intro hne
        exact absurd ((priv_remove_keepalive_streams _).trans hemp) hne
      · intro sid2 hne
        unfold agent_find_stream
        rw [priv_remove_keepalive_streams]
        show (removeFirstBy (fun s => s.id == sid) agent.streams).find?
            (fun s => s.id == sid2) = agent.streams.find? (fun s => s.id == sid2)
        exact find?_removeFirstBy_other _ _
          (fun x hq => by
            have hx : x.id = sid2 := by simpa using hq
            simp [hx, hne]) agent.streams
      · intro hnd
        unfold agent_find_stream
        rw [priv_remove_keepalive_streams]
        exact find?_removeFirstBy_self sid agent.streams hnd
    · rw [if_neg hemp]
      refine ⟨rfl, rfl, rfl, rfl, rfl, ?_, ?_, ?_, ?_⟩
      · intro he; exact absurd he hemp
      · intro _; rfl
      · intro sid2 hne
        unfold agent_find_stream
        exact find?_removeFirstBy_other _ _
          (fun x hq => by
            have hx : x.id = sid2 := by simpa using hq
            simp [hx, hne]) agent.streams
      · intro hnd
        unfold agent_find_stream
        exact find?_removeFirstBy_self sid agent.streams hnd

/-- Witness for C9: removing stream 1 from a two-stream agent keeps stream 2,
    the timer, and exactly the other stream's conncheck and discovery items. -/
theorem remove_stream_frame_witness :
    agent_find_stream agentTwoStreamsW 1 = some streamPairW ∧
    (nice_agent_remove_stream agentTwoStreamsW 1).streams = [streamTwoW] ∧
    (nice_agent_remove_stream agentTwoStreamsW 1).keepalive_timer_id = 9 ∧
    agent_find_stream (nice_agent_remove_stream agentTwoStreamsW 1) 1 = none :=
  ⟨by decide,
   ((remove_stream_frame agentTwoStreamsW 1).2 streamPairW (by decide)).1.trans
     (by decide),
   by decide,
   ((remove_stream_frame agentTwoStreamsW 1).2 streamPairW
     (by decide)).2.2.2.2.2.2.2.2 (by decide)⟩

theorem preservesOf_trans {a b c : GatherState} (h1 : PreservesOf a b)
    (h2 : PreservesOf b c) : PreservesOf a c := by
  refine ⟨h2.1.trans h1.1, h2.2.1.trans h1.2.1, ?_⟩
  rcases h2.2.2 with h | h
  · rcases h1.2.2 with g | g
    · exact Or.inl (h.trans g)
    · exact Or.inr (h.trans g)
  · exact Or.inr h

theorem discovery_add_host_preserves (stream : Stream) (cid : Nat)
    (addr : NiceAddress) (ok : Bool) (fn : Nat) (stream1 : Stream)
    (cand : NiceCandidate)
    (h : discovery_add_local_host_candidate stream cid addr ok fn
      = some (stream1, cand)) :
    stream1.id = stream.id ∧ stream1.local_ufrag = stream.local_ufrag ∧
    stream1.local_password = stream.local_password := by
  unfold discovery_add_local_host_candidate at h
  split at h
  · simp only [Option.some.injEq, Prod.mk.injEq] at h
    obtain ⟨h1, -⟩ := h
    subst h1
    exact ⟨rfl, rfl, rfl⟩
  · exact absurd h (by simp)

theorem gatherStep_preserves (fm : Bool) (sip : Option String) (sp : Nat)
    (orc : AddStreamOracle) (ai : Nat) (addr : NiceAddress) (n : Nat)
    (st : GatherState) :
    PreservesOf st (gatherStep fm sip sp orc ai addr n st).1 := by
  unfold gatherStep
  cases hh : discovery_add_local_host_candidate st.stream (n + 1) addr
      (orc.host_ok ai n) (orc.host_fileno ai n) with
  | none => exact ⟨rfl, rfl, Or.inr rfl⟩
  | some pr =>
    obtain ⟨stream1, cand⟩ := pr
    obtain ⟨hid, hu, hp⟩ := discovery_add_host_preserves st.stream (n + 1) addr
      (orc.host_ok ai n) (orc.host_fileno ai n) stream1 cand hh
    dsimp only
    cases sip with
    | none => exact ⟨hu, hp, Or.inl hid⟩
    | some ip =>
      cases fm with
      | false => exact ⟨hu, hp, Or.inl hid⟩
      | true =>
        dsimp only
        by_cases hres : (priv_add_srv_rfx_candidate_discovery st.discovery_list
            st.discovery_unsched_items cand ip sp stream1 (n + 1) addr
            (orc.cdisco_ok ai n) (orc.disco_append1_ok ai n)
            (orc.disco_append2_ok ai n)).2.2 = true
        · rw [if_pos hres]
          exact ⟨hu, hp, Or.inl hid⟩
        · rw [if_neg hres]
          exact ⟨hu, hp, Or.inr rfl⟩

theorem gatherComponentsLoop_preserves (fm : Bool) (sip : Option String)
    (sp : Nat) (orc : AddStreamOracle) (ai : Nat) (addr : NiceAddress) :
    ∀ (rem n : Nat) (st : GatherState),
      PreservesOf st (gatherComponentsLoop fm sip sp orc ai addr n rem st)
  | 0, _, _ => ⟨rfl, rfl, Or.inl rfl⟩
  | rem + 1, n, st => by
    simp only [gatherComponentsLoop]
    by_cases hs : (gatherStep fm sip sp orc ai addr n st).2 = true
    · rw [if_pos hs]
      exact preservesOf_trans (gatherStep_preserves fm sip sp orc ai addr n st)
        (gatherComponentsLoop_preserves fm sip sp orc ai addr rem (n + 1) _)
    · rw [if_neg hs]
      exact gatherStep_preserves fm sip sp orc ai addr n st

theorem gatherAddressesLoop_preserves (fm : Bool) (sip : Option String)
    (sp : Nat) (orc : AddStreamOracle) (ncomp : Nat) :
    ∀ (addrs : List NiceAddress) (ai : Nat) (st : GatherState),
      PreservesOf st (gatherAddressesLoop fm sip sp orc ncomp addrs ai st)
  | [], _, _ => ⟨rfl, rfl, Or.inl rfl⟩
  | addr :: rest, ai, st => by
    simp only [gatherAddressesLoop]
    exact preservesOf_trans
      (gatherComponentsLoop_preserves fm sip sp orc ai addr ncomp 0 st)
      (gatherAddressesLoop_preserves fm sip sp orc ncomp rest (ai + 1) _)

theorem addStreamFinalStream_spec (agent : NiceAgent) (n : Nat)
    (orc : AddStreamOracle) :
    (addStreamFinalStream agent n orc).local_ufrag = streamUfragOf agent ∧
    (addStreamFinalStream agent n orc).local_password = streamPwdOf agent ∧
    ((addStreamFinalStream agent n orc).id = agent.next_stream_id ∨
     (addStreamFinalStream agent n orc).id = 0) := by
  have hG := gatherAddressesLoop_preserves agent.full_mode agent.stun_server_ip
    agent.stun_server_port orc n agent.local_addresses 0
    { stream := { stream_new n with
        id := agent.next_stream_id,
        local_ufrag := streamUfragOf agent,
        local_password := streamPwdOf agent },
      discovery_list := agent.discovery_list,
      discovery_unsched_items := agent.discovery_unsched_items }
  unfold addStreamFinalStream
  refine ⟨?_, ?_, ?_⟩
  · dsimp only
    split
    · exact hG.1
    · exact hG.1
  · dsimp only
    split
    · exact hG.2.1
    · exact hG.2.1
  · dsimp only
    split
    · exact hG.2.2
    · exact hG.2.2

theorem generate_print_length (rng : NiceRNG) (n : Nat) :
    (nice_rng_generate_bytes_print rng n).1.length = n := by
  simp [nice_rng_generate_bytes_print]

theorem generate_print_printable (rng : NiceRNG) (n : Nat) :
    ∀ b ∈ (nice_rng_generate_bytes_print rng n).1, 33 ≤ b ∧ b ≤ 126 := by
  intro b hb
  simp only [nice_rng_generate_bytes_print, List.mem_map,
    List.mem_range] at hb
  obtain ⟨i, -, rfl⟩ := hb
  have hm : rng.supply.getD i 0 % 94 < 94 :=
    Nat.mod_lt _ (by omega)
  omega

theorem add_stream_main_facts (agent : NiceAgent) (n : Nat)
    (orc : AddStreamOracle) (a2 : NiceAgent) (s : Nat) (evs : List AgentSignal)
    (hla : ¬ agent.local_addresses = [])
    (hnew : ¬ orc.stream_new_ok = false)
    (happ : ¬ orc.streams_append_ok = false)
    (h : nice_agent_add_stream agent n orc = (a2, s, evs)) :
    a2 = addStreamAgent agent n orc ∧
    s = (addStreamFinalStream agent n orc).id ∧
    evs = (if (addStreamAgent agent n orc).discovery_unsched_items = 0 then
      [AgentSignal.candidateGatheringDone]
    else [AgentSignal.discoveryScheduled]) := by
  unfold nice_agent_add_stream at h
  rw [if_neg hla, if_neg hnew, if_neg happ] at h
  split at h
  · next hz =>
    simp only [Prod.mk.injEq] at h
    obtain ⟨h1, h2, h3⟩ := h
    exact ⟨h1.symm, h2.symm, by rw [if_pos hz]; exact h3.symm⟩
  · next hz =>
    simp only [Prod.mk.injEq] at h
    obtain ⟨h1, h2, h3⟩ := h
    exact ⟨h1.symm, h2.symm, by rw [if_neg hz]; exact h3.symm⟩

theorem add_stream_early_zero (agent : NiceAgent) (n : Nat)
    (orc : AddStreamOracle)
    (hzero : agent.local_addresses = [] ∨ orc.stream_new_ok = false ∨
      orc.streams_append_ok = false) :
    nice_agent_add_stream agent n orc = (agent, 0, []) := by
  unfold nice_agent_add_stream
  rcases hzero with h1 | h1 | h1
  · rw [if_pos h1]
  · by_cases hla : agent.local_addresses = []
    · rw [if_pos hla]
    · rw [if_neg hla, if_pos h1]
  · by_cases hla : agent.local_addresses = []
    · rw [if_pos hla]
    · by_cases hnew : orc.stream_new_ok = false
      · rw [if_neg hla, if_pos hnew]
      · rw [if_neg hla, if_neg hnew, if_pos h1]

/-- C8: `nice_agent_add_stream` before any local address has been added returns
    0 with the agent (in particular its stream list) unchanged and no signal;
    whenever it returns a positive stream id, that id is the agent's
    next_stream_id — so, streams ids being below the counter, an id no existing
    stream carries — the counter moves past it, and the new stream is appended
    behind the existing ones. -/
theorem add_stream_returns (agent : NiceAgent) (n : Nat) (orc : AddStreamOracle)
    (a2 : NiceAgent) (s : Nat) (evs : List AgentSignal)
    (hids : ∀ st ∈ agent.streams, st.id < agent.next_stream_id)
    (h : nice_agent_add_stream agent n orc = (a2, s, evs)) :
    (agent.local_addresses = [] → a2 = agent ∧ s = 0 ∧ evs = []) ∧
    (0 < s → s = agent.next_stream_id ∧ (∀ st ∈ agent.streams, ¬ st.id = s) ∧
      a2.next_stream_id = s + 1 ∧
      a2.streams = agent.streams ++ [addStreamFinalStream agent n orc]) := by
  by_cases hla : agent.local_addresses = []
  · rw [add_stream_early_zero agent n orc (Or.inl hla)] at h
    simp only [Prod.mk.injEq] at h
    obtain ⟨h1, h2, h3⟩ := h
    subst h1; subst h2; subst h3
    exact ⟨fun _ => ⟨rfl, rfl, rfl⟩, fun hs => absurd hs (by omega)⟩
  · by_cases hnew : orc.stream_new_ok = false
    · rw [add_stream_early_zero agent n orc (Or.inr (Or.inl hnew))] at h
      simp only [Prod.mk.injEq] at h
      obtain ⟨h1, h2, h3⟩ := h
      subst h1; subst h2; subst h3
      exact ⟨fun hc => absurd hc hla, fun hs => absurd hs (by omega)⟩
    · by_cases happ : orc.streams_append_ok = false
      · rw [add_stream_early_zero agent n orc (Or.inr (Or.inr happ))] at h
        simp only [Prod.mk.injEq] at h
        obtain ⟨h1, h2, h3⟩ := h
        subst h1; subst h2; subst h3
        exact ⟨fun hc => absurd hc hla, fun hs => absurd hs (by omega)⟩
      · obtain ⟨ha2, hsid, -⟩ :=
          add_stream_main_facts agent n orc a2 s evs hla hnew happ h
        subst ha2
        refine ⟨fun hc => absurd hc hla, fun hs => ?_⟩
        have hfs := addStreamFinalStream_spec agent n orc
        have hsn : s = agent.next_stream_id := by
          rcases hfs.2.2 with h1 | h1
          · rw [hsid, h1]
          · rw [hsid, h1] at hs; omega
        refine ⟨hsn, ?_, ?_, ?_⟩
        · intro st hst he
          have := hids st hst
          omega
        · show agent.next_stream_id + 1 = s + 1
          omega
        · rfl

/-- Witness for C8 on a concrete agent with one local address. -/
theorem add_stream_returns_witness :
    (agentAddW.local_addresses = [] →
      addResW.1 = agentAddW ∧ addResW.2.1 = 0 ∧ addResW.2.2 = []) ∧
    (0 < addResW.2.1 → addResW.2.1 = agentAddW.next_stream_id ∧
      (∀ st ∈ agentAddW.streams, ¬ st.id = addResW.2.1) ∧
      addResW.1.next_stream_id = addResW.2.1 + 1 ∧
      addResW.1.streams
        = agentAddW.streams ++ [addStreamFinalStream agentAddW 1 orcAllOk]) :=
  add_stream_returns agentAddW 1 orcAllOk addResW.1 addResW.2.1 addResW.2.2
    (by simp [agentAddW]) rfl

/-- C4: after a `nice_agent_add_stream` call that returned a stream id s > 0
    (on an agent whose stream ids sit below the id counter),
    `nice_agent_get_local_credentials` on s succeeds and yields exactly the
    ufrag and password drawn from the agent's RNG at stream creation: the ufrag
    is NICE_STREAM_DEF_UFRAG-1 printable bytes, the password
    NICE_STREAM_DEF_PWD-1 printable bytes. -/
theorem add_stream_credentials (agent : NiceAgent) (n : Nat)
    (orc : AddStreamOracle) (a2 : NiceAgent) (s : Nat) (evs : List AgentSignal)
    (hids : ∀ st ∈ agent.streams, st.id < agent.next_stream_id)
    (h : nice_agent_add_stream agent n orc = (a2, s, evs)) (hs : 0 < s) :
    nice_agent_get_local_credentials a2 s
      = some (streamUfragOf agent, streamPwdOf agent) ∧
    (streamUfragOf agent).length = NICE_STREAM_DEF_UFRAG - 1 ∧
    (streamPwdOf agent).length = NICE_STREAM_DEF_PWD - 1 ∧
    (∀ b ∈ streamUfragOf agent, 33 ≤ b ∧ b ≤ 126) ∧
    (∀ b ∈ streamPwdOf agent, 33 ≤ b ∧ b ≤ 126) := by
  have hcred : nice_agent_get_local_credentials a2 s
      = some (streamUfragOf agent, streamPwdOf agent) := by
    by_cases hla : agent.local_addresses = []
    · rw [add_stream_early_zero agent n orc (Or.inl hla)] at h
      simp only [Prod.mk.injEq] at h
      omega
    · by_cases hnew : orc.stream_new_ok = false
      · rw [add_stream_early_zero agent n orc (Or.inr (Or.inl hnew))] at h
        simp only [Prod.mk.injEq] at h
        omega
      · by_cases happ : orc.streams_append_ok = false
        · rw [add_stream_early_zero agent n orc (Or.inr (Or.inr happ))] at h
          simp only [Prod.mk.injEq] at h
          omega
        · obtain ⟨ha2, hsid, -⟩ :=
            add_stream_main_facts agent n orc a2 s evs hla hnew happ h
          subst ha2
          have hfs := addStreamFinalStream_spec agent n orc
          have hsn : s = agent.next_stream_id := by
            rcases hfs.2.2 with h1 | h1
            · rw [hsid, h1]
            · rw [hsid, h1] at hs; omega
          unfold nice_agent_get_local_credentials agent_find_stream
          have hnone : agent.streams.find? (fun st => st.id == s) = none := by
            apply find?_none_of_all
            intro st hst
            have := hids st hst
            simp only [beq_eq_false_iff_ne, ne_eq]
            omega
          show (match (agent.streams
              ++ [addStreamFinalStream agent n orc]).find?
              (fun st => st.id == s) with
            | none => none
            | some st => some (st.local_ufrag, st.local_password))
            = some (streamUfragOf agent, streamPwdOf agent)
          rw [find?_append_of_none _ hnone,
            find?_cons_true (by simp [hsid])]
          show some ((addStreamFinalStream agent n orc).local_ufrag,
              (addStreamFinalStream agent n orc).local_password)
            = some (streamUfragOf agent, streamPwdOf agent)
          rw [hfs.1, hfs.2.1]
  refine ⟨hcred, generate_print_length _ _, generate_print_length _ _,
    generate_print_printable _ _, generate_print_printable _ _⟩

/-- Witness for C4: the concrete one-component stream added to `agentAddW`. -/
theorem add_stream_credentials_witness :
    nice_agent_get_local_credentials addResW.1 addResW.2.1
      = some (streamUfragOf agentAddW, streamPwdOf agentAddW) ∧
    (streamUfragOf agentAddW).length = NICE_STREAM_DEF_UFRAG - 1 ∧
    (streamPwdOf agentAddW).length = NICE_STREAM_DEF_PWD - 1 ∧
    (∀ b ∈ streamUfragOf agentAddW, 33 ≤ b ∧ b ≤ 126) ∧
    (∀ b ∈ streamPwdOf agentAddW, 33 ≤ b ∧ b ≤ 126) :=
  add_stream_credentials agentAddW 1 orcAllOk addResW.1 addResW.2.1 addResW.2.2
    (by simp [agentAddW]) rfl (by decide)

/-- C5: at the end of every `nice_agent_add_stream` call that allocated and
    linked its stream, the candidate-gathering-done signal is emitted during
    the call iff discovery_unsched_items is 0 at that point; when it is
    nonzero, discovery scheduling is started instead and no gathering-done is
    emitted during the call. -/
theorem add_stream_gathering_done (agent : NiceAgent) (n : Nat)
    (orc : AddStreamOracle) (a2 : NiceAgent) (s : Nat) (evs : List AgentSignal)
    (hla : ¬ agent.local_addresses = [])
    (hnew : orc.stream_new_ok = true) (happ : orc.streams_append_ok = true)
    (h : nice_agent_add_stream agent n orc = (a2, s, evs)) :
    (AgentSignal.candidateGatheringDone ∈ evs ↔
      a2.discovery_unsched_items = 0) ∧
    (¬ a2.discovery_unsched_items = 0 →
      AgentSignal.discoveryScheduled ∈ evs ∧
      AgentSignal.candidateGatheringDone ∉ evs) := by
  obtain ⟨ha2, -, hevs⟩ := add_stream_main_facts agent n orc a2 s evs hla
    (by simp [hnew]) (by simp [happ]) h
  subst ha2
  by_cases hz : (addStreamAgent agent n orc).discovery_unsched_items = 0
  · rw [hevs, if_pos hz]
    exact ⟨by simp [hz], fun hc => absurd hz hc⟩
  · rw [hevs, if_neg hz]
    refine ⟨?_, fun _ => ⟨by simp, by simp⟩⟩
    constructor
    · intro hm
      simp at hm
    · intro hc
      exact absurd hc hz

/-- Witness for C5: the concrete call on `agentAddW` (no STUN server, so no
    unscheduled discoveries) emits gathering-done. -/
theorem add_stream_gathering_done_witness :
    (AgentSignal.candidateGatheringDone ∈ addResW.2.2 ↔
      addResW.1.discovery_unsched_items = 0) ∧
    (¬ addResW.1.discovery_unsched_items = 0 →
      AgentSignal.discoveryScheduled ∈ addResW.2.2 ∧
      AgentSignal.candidateGatheringDone ∉ addResW.2.2) :=
  add_stream_gathering_done agentAddW 1 orcAllOk addResW.1 addResW.2.1
    addResW.2.2 (by simp [agentAddW]) rfl rfl rfl

end Libnice
